import Mathlib

/-!
Shallow embedding of the tracking engine of src/Deteksi_Material.py:
DailyTimer, IndependentAreaTracker, FreetimeTracker, GloveTracker, the
shift and log-date functions, the per-frame detection conversion of
EnhancedMaterialDippingDetection.update_all_trackers, and the frame-queue
overflow handling of Receive.

Timestamps are modelled as a calendar-day index together with a rational
time of day in seconds; differences of timestamps give the
total_seconds value Python computes on a timedelta.  Database writes are
modelled as emitted SessionRecord values.
-/

namespace DeteksiMaterial

/-- Timestamp: calendar day index and time of day in seconds (rational,
so fractional seconds are representable). -/
structure Timestamp where
  day : ℤ
  tod : ℚ
  deriving DecidableEq

/-- Absolute time of a timestamp, in seconds. -/
def Timestamp.toSeconds (t : Timestamp) : ℚ := 86400 * (t.day : ℚ) + t.tod

/-- Difference of two timestamps in seconds; models
(a - b).total_seconds() on Python datetimes. -/
def tdiff (a b : Timestamp) : ℚ := a.toSeconds - b.toSeconds

/-- Hour component of a timestamp (dt.hour). -/
def Timestamp.hour (t : Timestamp) : ℤ := ⌊t.tod / 3600⌋

/-- Minute component of a timestamp (dt.minute). -/
def Timestamp.minute (t : Timestamp) : ℤ := ⌊t.tod / 60⌋ % 60

/-- Shift labels returned by get_current_shift. -/
inductive Shift where
  | shift1
  | shift2
  | shift3
  deriving DecidableEq

/-- Embeds get_current_shift (identical in IndependentAreaTracker,
FreetimeTracker and GloveTracker): only dt.hour and dt.minute are read. -/
def get_current_shift (hour minute : ℤ) : Shift :=
  if (hour = 7 ∧ 10 ≤ minute) ∨ (7 < hour ∧ hour < 16) then Shift.shift1
  else if (16 ≤ hour ∧ hour < 24) ∨ (hour = 0 ∧ minute ≤ 15) then Shift.shift2
  else Shift.shift3

/-- Embeds get_log_date_for_shift: yesterday for Shift_3, yesterday for
Shift_2 in the hour-0 / minute-at-most-15 window, today otherwise. -/
def get_log_date_for_shift (date hour minute : ℤ) : ℤ :=
  if get_current_shift hour minute = Shift.shift3 then date - 1
  else if get_current_shift hour minute = Shift.shift2 ∧ hour = 0 ∧ minute ≤ 15 then
    date - 1
  else date

/-- Truncation toward zero, as Python int() applied to a float. -/
def int_trunc (q : ℚ) : ℤ := if q < 0 then -⌊-q⌋ else ⌊q⌋

/-- Floored remainder, as the Python % operator on floats. -/
def qfmod (a b : ℚ) : ℚ := a - b * ⌊a / b⌋

/-- Zero-padded rendering of one duration component, as Python 02d
formatting. -/
def pad2 (n : ℤ) : String :=
  if 0 ≤ n ∧ n < 10 then "0" ++ toString n else toString n

/-- Embeds DailyTimer.format_duration / the identical format helpers:
seconds to zero-padded HH:MM:SS. -/
def format_duration (seconds : ℚ) : String :=
  pad2 ⌊seconds / 3600⌋ ++ ":" ++ pad2 ⌊qfmod seconds 3600 / 60⌋ ++ ":"
    ++ pad2 ⌊qfmod seconds 60⌋

/-- Columns of one row inserted into iot_lacquerings by the three
save functions. -/
structure SessionRecord where
  area : String
  time : String
  time_int : ℤ
  time_in : Timestamp
  shift : Shift
  remark : String
  no_area : ℤ
  log_date : ℤ
  created_at : Timestamp
  deriving DecidableEq

/-- Shared body of save_area_data, save_freetime_data and
save_glove_data: the row built from time_in and created_at; time_int is
int((created_at - time_in).total_seconds()). -/
def mkSessionRecord (area_db : String) (time_format : String)
    (time_in created_at : Timestamp) (remark : String) (no_area : ℤ) :
    SessionRecord :=
  { area := area_db
    time := time_format
    time_int := int_trunc (tdiff created_at time_in)
    time_in := time_in
    shift := get_current_shift time_in.hour time_in.minute
    remark := remark
    no_area := no_area
    log_date := get_log_date_for_shift time_in.day time_in.hour time_in.minute
    created_at := created_at }

/-- State of DailyTimer. -/
structure DailyTimer where
  area_name : String
  daily_total_seconds : ℚ
  last_reset_date : ℤ
  current_session_start : Option Timestamp
  is_active : Bool
  deriving DecidableEq

/-- Freshly constructed DailyTimer (last_reset_date is the construction
date). -/
def DailyTimer.init (name : String) (init_date : ℤ) : DailyTimer :=
  { area_name := name
    daily_total_seconds := 0
    last_reset_date := init_date
    current_session_start := none
    is_active := false }

/-- Embeds DailyTimer.check_daily_reset; current_date is datetime.now().date(). -/
def DailyTimer.check_daily_reset (d : DailyTimer) (current_date : ℤ) : DailyTimer :=
  if d.last_reset_date < current_date then
    { d with daily_total_seconds := 0, last_reset_date := current_date }
  else d

/-- Embeds DailyTimer.start_session. -/
def DailyTimer.start_session (d : DailyTimer) (start_time : Timestamp) : DailyTimer :=
  if d.is_active then d
  else
    DailyTimer.check_daily_reset
      { d with current_session_start := some start_time, is_active := true }
      start_time.day

/-- Embeds DailyTimer.end_session; returns the updated timer and the
returned session duration. -/
def DailyTimer.end_session (d : DailyTimer) (end_time : Timestamp) :
    DailyTimer × ℚ :=
  if d.is_active then
    match d.current_session_start with
    | some s =>
        let dur := tdiff end_time s
        ({ d with daily_total_seconds := d.daily_total_seconds + dur,
                  is_active := false, current_session_start := none }, dur)
    | none => (d, 0)
  else (d, 0)

/-- Embeds DailyTimer.get_current_session_duration; now stands for
datetime.now() at the call. -/
def DailyTimer.get_current_session_duration (d : DailyTimer)
    (now : Timestamp) : ℚ :=
  if d.is_active then
    match d.current_session_start with
    | some s => tdiff now s
    | none => 0
  else 0

/-- Embeds DailyTimer.get_daily_total. -/
def DailyTimer.get_daily_total (d : DailyTimer) (now : Timestamp) : ℚ :=
  d.daily_total_seconds +
    (if d.is_active then d.get_current_session_duration now else 0)

/-- Embeds DailyTimer.force_daily_reset; current_date is
datetime.now().date() at the reset. -/
def DailyTimer.force_daily_reset (d : DailyTimer) (current_date : ℤ) : DailyTimer :=
  { d with daily_total_seconds := 0, last_reset_date := current_date }

/-- Remark column for occupancy and glove sessions. -/
def remark_in_use : String := "in_use"

/-- Remark column for freetime sessions. -/
def remark_freetime : String := "freetime"

/-- Reason logged when material ends freetime. -/
def reason_material_detected : String := "material_detected"

/-- Reason logged when a glove ends freetime. -/
def reason_glove_detected : String := "glove_detected"

/-- Axis-aligned rectangle (x1, y1, x2, y2), also used for detection
bounding boxes. -/
structure BBox where
  x1 : ℚ
  y1 : ℚ
  x2 : ℚ
  y2 : ℚ
  deriving DecidableEq

/-- State of IndependentAreaTracker.  The source also keeps a display
string material_entry_time (strftime of the entry); it is modelled as
the entry timestamp itself since it is only rendered on screen. -/
structure IndependentAreaTracker where
  area_name : String
  area_bbox : BBox
  area_name_db : String
  area_number : ℤ
  is_material_present : Bool
  material_start_time : Option Timestamp
  last_detection_time : Option Timestamp
  material_entry_time : Option Timestamp
  daily_timer : DailyTimer
  material_lost_threshold : ℚ
  deriving DecidableEq

/-- Freshly constructed area tracker; init_date is the construction
date used by its DailyTimer. -/
def IndependentAreaTracker.init (area_name : String) (area_bbox : BBox)
    (area_name_db : String) (area_number : ℤ) (init_date : ℤ) :
    IndependentAreaTracker :=
  { area_name := area_name
    area_bbox := area_bbox
    area_name_db := area_name_db
    area_number := area_number
    is_material_present := false
    material_start_time := none
    last_detection_time := none
    material_entry_time := none
    daily_timer := DailyTimer.init area_name init_date
    material_lost_threshold := 1 }

/-- Embeds IndependentAreaTracker.is_inside_area: the center of the
object box must lie inside the area rectangle, bounds inclusive. -/
def IndependentAreaTracker.is_inside_area (tr : IndependentAreaTracker)
    (obj : BBox) : Bool :=
  let cx := (obj.x1 + obj.x2) / 2
  let cy := (obj.y1 + obj.y2) / 2
  decide (tr.area_bbox.x1 ≤ cx ∧ cx ≤ tr.area_bbox.x2 ∧
          tr.area_bbox.y1 ≤ cy ∧ cy ≤ tr.area_bbox.y2)

/-- Embeds IndependentAreaTracker.save_area_data: the database write is
modelled as the constructed row. -/
def IndependentAreaTracker.save_area_data (tr : IndependentAreaTracker)
    (time_format : String) (time_in created_at : Timestamp)
    (remark : String) : SessionRecord :=
  mkSessionRecord tr.area_name_db time_format time_in created_at remark
    tr.area_number

/-- Embeds IndependentAreaTracker.handle_material_exit: ends the timer
session, emits one in_use row, resets the state; no-op when no material
session is open. -/
def IndependentAreaTracker.handle_material_exit
    (tr : IndependentAreaTracker) (exit_time : Timestamp) :
    IndependentAreaTracker × List SessionRecord :=
  if tr.is_material_present then
    match tr.material_start_time with
    | some start =>
        let p := tr.daily_timer.end_session exit_time
        let r := tr.save_area_data (format_duration p.2) start exit_time
          remark_in_use
        ({ tr with is_material_present := false
                   material_start_time := none
                   material_entry_time := none
                   last_detection_time := none
                   daily_timer := p.1 }, [r])
    | none => (tr, [])
  else (tr, [])

/-- Embeds IndependentAreaTracker.update_detection. -/
def IndependentAreaTracker.update_detection (tr : IndependentAreaTracker)
    (current_time : Timestamp) (material_detected : Bool) :
    IndependentAreaTracker × List SessionRecord :=
  if material_detected then
    let tr1 := { tr with last_detection_time := some current_time }
    if tr1.is_material_present then (tr1, [])
    else
      ({ tr1 with is_material_present := true
                  material_start_time := some current_time
                  material_entry_time := some current_time
                  daily_timer := tr1.daily_timer.start_session current_time },
        [])
  else
    if tr.is_material_present then
      match tr.last_detection_time with
      | some last =>
          if tr.material_lost_threshold ≤ tdiff current_time last then
            tr.handle_material_exit current_time
          else (tr, [])
      | none => (tr, [])
    else (tr, [])

/-- Feeds a list of frames (time, material_detected) to one area
tracker, collecting every emitted row in order. -/
def IndependentAreaTracker.run (tr : IndependentAreaTracker) :
    List (Timestamp × Bool) → IndependentAreaTracker × List SessionRecord
  | [] => (tr, [])
  | f :: rest =>
      let p := tr.update_detection f.1 f.2
      let q := p.1.run rest
      (q.1, p.2 ++ q.2)

/-- State of FreetimeTracker. -/
structure FreetimeTracker where
  area_name_db : String
  is_freetime_active : Bool
  freetime_start_time : Option Timestamp
  freetime_threshold : ℚ
  all_empty_start : Option Timestamp
  daily_timer : DailyTimer
  deriving DecidableEq

/-- Freshly constructed freetime tracker. -/
def FreetimeTracker.init (area_name_db : String) (init_date : ℤ) :
    FreetimeTracker :=
  { area_name_db := area_name_db
    is_freetime_active := false
    freetime_start_time := none
    freetime_threshold := 2
    all_empty_start := none
    daily_timer := DailyTimer.init ("Freetime") init_date }

/-- Embeds FreetimeTracker.save_freetime_data (no_area column is 0). -/
def FreetimeTracker.save_freetime_data (ft : FreetimeTracker)
    (time_format : String) (time_in created_at : Timestamp)
    (remark : String) : SessionRecord :=
  mkSessionRecord ft.area_name_db time_format time_in created_at remark 0

/-- Embeds FreetimeTracker.end_freetime; the reason argument is only
logged by the source. -/
def FreetimeTracker.end_freetime (ft : FreetimeTracker)
    (end_time : Timestamp) (reason : String) :
    FreetimeTracker × List SessionRecord :=
  if ft.is_freetime_active then
    match ft.freetime_start_time with
    | some start =>
        let p := ft.daily_timer.end_session end_time
        let r := ft.save_freetime_data (format_duration p.2) start end_time
          remark_freetime
        ({ ft with is_freetime_active := false
                   freetime_start_time := none
                   daily_timer := p.1 }, [r])
    | none => (ft, [])
  else (ft, [])

/-- Embeds FreetimeTracker.update_freetime_status. -/
def FreetimeTracker.update_freetime_status (ft : FreetimeTracker)
    (all_areas_empty : Bool) (current_time : Timestamp) :
    FreetimeTracker × List SessionRecord :=
  if all_areas_empty then
    match ft.all_empty_start with
    | none => ({ ft with all_empty_start := some current_time }, [])
    | some s =>
        if ft.freetime_threshold ≤ tdiff current_time s ∧
            ft.is_freetime_active = false then
          ({ ft with is_freetime_active := true
                     freetime_start_time := some current_time
                     daily_timer := ft.daily_timer.start_session current_time },
            [])
        else (ft, [])
  else
    let p :=
      if ft.is_freetime_active then
        ft.end_freetime current_time reason_material_detected
      else (ft, [])
    ({ p.1 with all_empty_start := none }, p.2)

/-- Feeds a list of frames (time, all_areas_empty) to the freetime
tracker, collecting every emitted row in order. -/
def FreetimeTracker.run (ft : FreetimeTracker) :
    List (Timestamp × Bool) → FreetimeTracker × List SessionRecord
  | [] => (ft, [])
  | f :: rest =>
      let p := ft.update_freetime_status f.2 f.1
      let q := p.1.run rest
      (q.1, p.2 ++ q.2)

/-- State of GloveTracker.  The glove polygon and
cv2.pointPolygonTest are external geometry; the polygon membership test
is abstracted where the detection conversion needs it. -/
structure GloveTracker where
  area_name_db : String
  is_glove_detected : Bool
  glove_start_time : Option Timestamp
  last_glove_detection : Option Timestamp
  glove_lost_threshold : ℚ
  was_freetime_before_glove : Bool
  daily_timer : DailyTimer
  deriving DecidableEq

/-- Freshly constructed glove tracker. -/
def GloveTracker.init (area_name_db : String) (init_date : ℤ) :
    GloveTracker :=
  { area_name_db := area_name_db
    is_glove_detected := false
    glove_start_time := none
    last_glove_detection := none
    glove_lost_threshold := 1
    was_freetime_before_glove := false
    daily_timer := DailyTimer.init ("Glove") init_date }

/-- Embeds GloveTracker.save_glove_data (no_area column is 5). -/
def GloveTracker.save_glove_data (g : GloveTracker)
    (time_format : String) (time_in created_at : Timestamp)
    (remark : String) : SessionRecord :=
  mkSessionRecord g.area_name_db time_format time_in created_at remark 5

/-- Embeds GloveTracker.handle_glove_exit: a row is written only when
the session was preceded by freetime; the state is reset either way. -/
def GloveTracker.handle_glove_exit (g : GloveTracker)
    (exit_time : Timestamp) : GloveTracker × List SessionRecord :=
  if g.is_glove_detected then
    match g.glove_start_time with
    | some start =>
        if g.was_freetime_before_glove then
          let p := g.daily_timer.end_session exit_time
          let r := g.save_glove_data (format_duration p.2) start exit_time
            remark_in_use
          ({ g with is_glove_detected := false
                    glove_start_time := none
                    last_glove_detection := none
                    was_freetime_before_glove := false
                    daily_timer := p.1 }, [r])
        else
          ({ g with is_glove_detected := false
                    glove_start_time := none
                    last_glove_detection := none
                    was_freetime_before_glove := false }, [])
    | none => (g, [])
  else (g, [])

/-- Embeds GloveTracker.update_glove_detection; it also returns the
updated freetime tracker it may have called back into, and every row
emitted by either tracker during the call. -/
def GloveTracker.update_glove_detection (g : GloveTracker)
    (current_time : Timestamp) (glove_detected : Bool)
    (ft : FreetimeTracker) :
    GloveTracker × FreetimeTracker × List SessionRecord :=
  if glove_detected then
    let g1 := { g with last_glove_detection := some current_time }
    if g1.is_glove_detected then (g1, ft, [])
    else
      if ft.is_freetime_active then
        let p := ft.end_freetime current_time reason_glove_detected
        ({ g1 with was_freetime_before_glove := true
                   daily_timer := g1.daily_timer.start_session current_time
                   is_glove_detected := true
                   glove_start_time := some current_time }, p.1, p.2)
      else
        ({ g1 with was_freetime_before_glove := false
                   is_glove_detected := true
                   glove_start_time := some current_time }, ft, [])
  else
    if g.is_glove_detected then
      match g.last_glove_detection with
      | some last =>
          if g.glove_lost_threshold ≤ tdiff current_time last then
            let p := g.handle_glove_exit current_time
            (p.1, ft, p.2)
          else (g, ft, [])
      | none => (g, ft, [])
    else (g, ft, [])

/-- One raw detection of the external model: box, class id,
confidence. -/
structure Detection where
  bbox : BBox
  cls : ℤ
  conf : ℚ
  deriving DecidableEq

/-- Marks the first area (in order) whose rectangle contains the box,
mirroring the break in the material loop of update_all_trackers. -/
def markArea (areas : List IndependentAreaTracker) (flags : List Bool)
    (bb : BBox) : List Bool :=
  match areas.findIdx? (fun a => a.is_inside_area bb) with
  | some i => flags.set i true
  | none => flags

/-- One step of the detection loop of update_all_trackers: class 0 over
confidence 0.6 marks a zone, class 2 over confidence 0.6 inside the
glove polygon sets the glove flag, everything else is ignored.
insideGlove abstracts cv2.pointPolygonTest on the glove polygon. -/
def detectStep (areas : List IndependentAreaTracker)
    (insideGlove : BBox → Bool) (acc : List Bool × Bool) (d : Detection) :
    List Bool × Bool :=
  if d.cls = 0 ∧ (0.6 : ℚ) < d.conf then (markArea areas acc.1 d.bbox, acc.2)
  else if d.cls = 2 ∧ (0.6 : ℚ) < d.conf then
    (acc.1, acc.2 || insideGlove d.bbox)
  else acc

/-- Embeds the detection-conversion half of update_all_trackers: from
the raw detection list to the per-zone material flags (in the order of
the area list) and the glove flag. -/
def update_detection_flags (areas : List IndependentAreaTracker)
    (insideGlove : BBox → Bool) (dets : List Detection) :
    List Bool × Bool :=
  dets.foldl (detectStep areas insideGlove)
    (List.replicate areas.length false, false)

/-- Capacity of the global frame queue. -/
def max_queue_size : ℕ := 100

/-- Embeds the enqueue of the Receive loop with no concurrent consumer:
a non-full queue appends, a full queue first discards qsize // 2 oldest
frames and then appends the new one. -/
def receive_enqueue {α : Type} (maxsize : ℕ) (q : List α) (f : α) :
    List α :=
  if q.length < maxsize then q ++ [f]
  else q.drop (q.length / 2) ++ [f]

/-- Time of day in seconds of a wall-clock reading h:m:s. -/
def todOf (h m s : ℕ) : ℤ := 3600 * h + 60 * m + s

/-- Decides that every not-detected frame of a trace arrives while the
elapsed time since the last detection (threaded from the given anchor)
is still below the loss threshold. -/
def gapsOk (threshold : ℚ) : Option Timestamp → List (Timestamp × Bool) → Bool
  | _, [] => true
  | _, (t, true) :: rest => gapsOk threshold (some t) rest
  | some l, (t, false) :: rest =>
      decide (tdiff t l < threshold) && gapsOk threshold (some l) rest
  | none, (_, false) :: rest => gapsOk threshold none rest

/-- Zone tracker of the end-to-end scenario: Area 1 constructed on day 0. -/
def zoneScenarioTracker : IndependentAreaTracker :=
  IndependentAreaTracker.init ("Area 1") ⟨552, 292, 674, 422⟩ ("bak_alkali") 1 0

/-- Frames of the end-to-end zone scenario: material detected every
second from 10:00:00 to 10:00:05 on day 0, then absent through 10:00:10. -/
def zoneScenarioFrames : List (Timestamp × Bool) :=
  [(⟨0, 36000⟩, true), (⟨0, 36001⟩, true), (⟨0, 36002⟩, true),
   (⟨0, 36003⟩, true), (⟨0, 36004⟩, true), (⟨0, 36005⟩, true),
   (⟨0, 36006⟩, false), (⟨0, 36007⟩, false), (⟨0, 36008⟩, false),
   (⟨0, 36009⟩, false), (⟨0, 36010⟩, false)]

/-- Freetime tracker of the freetime scenario, constructed on day 0. -/
def freetimeScenarioTracker : FreetimeTracker :=
  FreetimeTracker.init ("bak_alkali") 0

/-- Frames of the freetime scenario: every zone empty each second from
09:00:00 to 09:00:03, then material at 09:00:03.5. -/
def freetimeScenarioFrames : List (Timestamp × Bool) :=
  [(⟨0, 32400⟩, true), (⟨0, 32401⟩, true), (⟨0, 32402⟩, true),
   (⟨0, 32403⟩, true), (⟨0, 64807/2⟩, false)]

/-- DailyTimer state of Area 1 during the zone scenario. -/
def zTimer (tot : ℚ) (st : Option Timestamp) (act : Bool) : DailyTimer :=
  { area_name := "Area 1", daily_total_seconds := tot, last_reset_date := 0,
    current_session_start := st, is_active := act }

/-- Area-1 tracker state during the zone scenario. -/
def zTr (present : Bool) (start last entry : Option Timestamp)
    (timer : DailyTimer) : IndependentAreaTracker :=
  { area_name := "Area 1", area_bbox := ⟨552, 292, 674, 422⟩,
    area_name_db := "bak_alkali", area_number := 1,
    is_material_present := present, material_start_time := start,
    last_detection_time := last, material_entry_time := entry,
    daily_timer := timer, material_lost_threshold := 1 }

/-- Occupied state of the zone scenario with last detection at time t. -/
def occAt (t : ℚ) : IndependentAreaTracker :=
  zTr true (some ⟨0, 36000⟩) (some ⟨0, t⟩) (some ⟨0, 36000⟩)
    (zTimer 0 (some ⟨0, 36000⟩) true)

/-- Final empty state of the zone scenario. -/
def zDone : IndependentAreaTracker :=
  zTr false none none none (zTimer 6 none false)

/-- Row emitted by the zone scenario. -/
def zRec : SessionRecord :=
  { area := "bak_alkali", time := "00:00:06", time_int := 6,
    time_in := ⟨0, 36000⟩, shift := Shift.shift1, remark := "in_use",
    no_area := 1, log_date := 0, created_at := ⟨0, 36006⟩ }

/-- DailyTimer state of the freetime scenario. -/
def fTimer (tot : ℚ) (st : Option Timestamp) (act : Bool) : DailyTimer :=
  { area_name := "Freetime", daily_total_seconds := tot, last_reset_date := 0,
    current_session_start := st, is_active := act }

/-- Idle freetime-tracker state with the given all-empty anchor. -/
def fIdle (aes : Option Timestamp) : FreetimeTracker :=
  { area_name_db := "bak_alkali", is_freetime_active := false,
    freetime_start_time := none, freetime_threshold := 2,
    all_empty_start := aes, daily_timer := fTimer 0 none false }

/-- Active freetime-tracker state of the freetime scenario: freetime
started at 09:00:02, all-empty anchor 09:00:00. -/
def fActive : FreetimeTracker :=
  { area_name_db := "bak_alkali", is_freetime_active := true,
    freetime_start_time := some ⟨0, 32402⟩, freetime_threshold := 2,
    all_empty_start := some ⟨0, 32400⟩,
    daily_timer := fTimer 0 (some ⟨0, 32402⟩) true }

/-- Final freetime-tracker state of the freetime scenario. -/
def fDone : FreetimeTracker :=
  { area_name_db := "bak_alkali", is_freetime_active := false,
    freetime_start_time := none, freetime_threshold := 2,
    all_empty_start := none, daily_timer := fTimer (3/2) none false }

/-- Row emitted by the freetime scenario. -/
def fRec : SessionRecord :=
  { area := "bak_alkali", time := "00:00:01", time_int := 1,
    time_in := ⟨0, 32402⟩, shift := Shift.shift1, remark := "freetime",
    no_area := 0, log_date := 0, created_at := ⟨0, 64807/2⟩ }

/-- Glove-polygon membership test used in sample inputs; the polygon
geometry itself is external (cv2.pointPolygonTest). -/
def sampleGloveTest : BBox → Bool := fun _ => true

/-- Sample detection list: a material-class and a glove-class detection
both at confidence exactly 0.6, and a detection of an unrelated class. -/
def sampleDetections : List Detection :=
  [ { bbox := ⟨600, 330, 650, 400⟩, cls := 0, conf := 0.6 },
    { bbox := ⟨600, 330, 650, 400⟩, cls := 2, conf := 0.6 },
    { bbox := ⟨600, 330, 650, 400⟩, cls := 7, conf := 1 } ]

/-- Starting a DailyTimer session always leaves the timer active. -/
theorem DailyTimer.start_session_is_active (d : DailyTimer) (t : Timestamp) :
    (d.start_session t).is_active = true := by
  unfold DailyTimer.start_session DailyTimer.check_daily_reset
  by_cases h : d.is_active
  · simp [h]
  · simp [h]
    split <;> rfl

/-- C5: DailyTimer.end_session is a no-op returning 0 on an inactive
timer; on an active timer it adds now minus the session start to the
accumulator, clears the session and returns that duration; and
get_daily_total is the accumulator plus the live session time when a
session is open, the accumulator alone otherwise. -/
theorem C5_daily_timer_contract (d : DailyTimer) (now : Timestamp) :
    (d.is_active = false →
      d.end_session now = (d, 0) ∧
      d.get_daily_total now = d.daily_total_seconds) ∧
    (∀ s, d.is_active = true → d.current_session_start = some s →
      d.end_session now =
        ({ d with daily_total_seconds := d.daily_total_seconds + tdiff now s,
                  is_active := false, current_session_start := none },
          tdiff now s) ∧
      d.get_daily_total now = d.daily_total_seconds + tdiff now s) := by
  constructor
  · intro h
    constructor
    · unfold DailyTimer.end_session
      simp [h]
    · unfold DailyTimer.get_daily_total
      simp [h]
  · intro s ha hs
    constructor
    · unfold DailyTimer.end_session
      simp [ha, hs]
    · unfold DailyTimer.get_daily_total DailyTimer.get_current_session_duration
      simp [ha, hs]

/-- Witness for C5 at a concrete active timer. -/
theorem C5_daily_timer_contract_witness :
    ({ area_name := "Area 1", daily_total_seconds := 10, last_reset_date := 0,
       current_session_start := some ⟨0, 100⟩,
       is_active := true } : DailyTimer).is_active = true ∧
    ({ area_name := "Area 1", daily_total_seconds := 10, last_reset_date := 0,
       current_session_start := some ⟨0, 100⟩,
       is_active := true } : DailyTimer).get_daily_total ⟨0, 130⟩ = 10 + 30 := by
  refine ⟨rfl, ?_⟩
  have h := (C5_daily_timer_contract
    { area_name := "Area 1", daily_total_seconds := 10, last_reset_date := 0,
      current_session_start := some ⟨0, 100⟩, is_active := true }
    ⟨0, 130⟩).2 ⟨0, 100⟩ rfl rfl
  have h30 : tdiff (⟨0, 130⟩ : Timestamp) ⟨0, 100⟩ = 30 := by
    with_unfolding_all decide
  rw [h30] at h
  exact h.2

/-- C9: force_daily_reset zeroes the accumulator and stamps the reset
date but leaves the active flag and the session start untouched, so a
session open across the forced reset stays open and, when it later
ends, contributes its whole duration (including the part elapsed before
the reset) to the new day's accumulator. -/
theorem C9_force_reset_keeps_open_session (d : DailyTimer)
    (reset_date : ℤ) (t : Timestamp) :
    ((d.force_daily_reset reset_date).daily_total_seconds = 0 ∧
     (d.force_daily_reset reset_date).last_reset_date = reset_date ∧
     (d.force_daily_reset reset_date).is_active = d.is_active ∧
     (d.force_daily_reset reset_date).current_session_start =
       d.current_session_start) ∧
    (∀ s, d.is_active = true → d.current_session_start = some s →
      ((d.force_daily_reset reset_date).end_session t).1.daily_total_seconds =
        tdiff t s ∧
      ((d.force_daily_reset reset_date).end_session t).2 = tdiff t s) := by
  constructor
  · exact ⟨rfl, rfl, rfl, rfl⟩
  · intro s ha hs
    unfold DailyTimer.force_daily_reset DailyTimer.end_session
    simp [ha, hs]

set_option maxRecDepth 4000 in
/-- Witness for C9 at a concrete timer with an open session. -/
theorem C9_force_reset_keeps_open_session_witness :
    ({ area_name := "Glove", daily_total_seconds := 500, last_reset_date := 0,
       current_session_start := some ⟨0, 86000⟩,
       is_active := true } : DailyTimer).is_active = true ∧
    ((({ area_name := "Glove", daily_total_seconds := 500, last_reset_date := 0,
         current_session_start := some ⟨0, 86000⟩,
         is_active := true } : DailyTimer).force_daily_reset 1).end_session
        ⟨1, 100⟩).1.daily_total_seconds = 500 := by
  refine ⟨rfl, ?_⟩
  have h := (C9_force_reset_keeps_open_session
    { area_name := "Glove", daily_total_seconds := 500, last_reset_date := 0,
      current_session_start := some ⟨0, 86000⟩, is_active := true }
    1 ⟨1, 100⟩).2 ⟨0, 86000⟩ rfl rfl
  have h500 : tdiff (⟨1, 100⟩ : Timestamp) ⟨0, 86000⟩ = 500 := by
    with_unfolding_all decide
  rw [h500] at h
  exact h.1

/-- C7: ending freetime with no active freetime session, and handling a
material exit with no material present, leave the tracker unchanged and
emit no row; and a second consecutive call to either exit handler is
always a no-op. -/
theorem C7_exit_handlers_idempotent :
    (∀ (ft : FreetimeTracker) (t : Timestamp) (r : String),
      ft.is_freetime_active = false → ft.end_freetime t r = (ft, [])) ∧
    (∀ (tr : IndependentAreaTracker) (t : Timestamp),
      tr.is_material_present = false → tr.handle_material_exit t = (tr, [])) ∧
    (∀ (ft : FreetimeTracker) (t1 t2 : Timestamp) (r1 r2 : String),
      (ft.end_freetime t1 r1).1.end_freetime t2 r2 =
        ((ft.end_freetime t1 r1).1, [])) ∧
    (∀ (tr : IndependentAreaTracker) (t1 t2 : Timestamp),
      (tr.handle_material_exit t1).1.handle_material_exit t2 =
        ((tr.handle_material_exit t1).1, [])) := by
  have hft : ∀ (ft : FreetimeTracker) (t : Timestamp) (r : String),
      ft.is_freetime_active = false → ft.end_freetime t r = (ft, []) := by
    intro ft t r h
    unfold FreetimeTracker.end_freetime
    simp [h]
  have htr : ∀ (tr : IndependentAreaTracker) (t : Timestamp),
      tr.is_material_present = false → tr.handle_material_exit t = (tr, []) := by
    intro tr t h
    unfold IndependentAreaTracker.handle_material_exit
    simp [h]
  refine ⟨hft, htr, ?_, ?_⟩
  · intro ft t1 t2 r1 r2
    by_cases h : ft.is_freetime_active
    · unfold FreetimeTracker.end_freetime
      simp [h]
      cases hs : ft.freetime_start_time with
      | none => simp [FreetimeTracker.end_freetime, h, hs]
      | some s => simp
    · rw [hft ft t1 r1 (by simpa using h)]
      exact hft ft t2 r2 (by simpa using h)
  · intro tr t1 t2
    by_cases h : tr.is_material_present
    · unfold IndependentAreaTracker.handle_material_exit
      simp [h]
      cases hs : tr.material_start_time with
      | none => simp [IndependentAreaTracker.handle_material_exit, h, hs]
      | some s => simp
    · rw [htr tr t1 (by simpa using h)]
      exact htr tr t2 (by simpa using h)

/-- Witness for C7 on concrete idle trackers. -/
theorem C7_exit_handlers_idempotent_witness :
    (freetimeScenarioTracker.is_freetime_active = false ∧
      freetimeScenarioTracker.end_freetime ⟨0, 1⟩ ("x") =
        (freetimeScenarioTracker, [])) ∧
    (zoneScenarioTracker.is_material_present = false ∧
      zoneScenarioTracker.handle_material_exit ⟨0, 1⟩ =
        (zoneScenarioTracker, [])) := by
  refine ⟨⟨rfl, ?_⟩, ⟨rfl, ?_⟩⟩
  · exact C7_exit_handlers_idempotent.1 freetimeScenarioTracker ⟨0, 1⟩ ("x") rfl
  · exact C7_exit_handlers_idempotent.2.1 zoneScenarioTracker ⟨0, 1⟩ rfl

/-- C8: when the frame queue holds max_queue_size frames and one more
arrives with no consumer taking frames, the overflow handling drops the
oldest half and appends the new frame, so the resulting length stays at
most the capacity and the newest frame is in the queue (in last
position). -/
theorem C8_queue_overflow {α : Type} (q : List α) (f : α)
    (hq : q.length = max_queue_size) :
    (receive_enqueue max_queue_size q f).length ≤ max_queue_size ∧
    f ∈ receive_enqueue max_queue_size q f ∧
    (receive_enqueue max_queue_size q f).getLast? = some f := by
  unfold receive_enqueue max_queue_size
  unfold max_queue_size at hq
  simp [hq]

/-- Witness for C8 at a concrete full queue of 100 frames. -/
theorem C8_queue_overflow_witness :
    (List.replicate 100 0).length = max_queue_size ∧
    (receive_enqueue max_queue_size (List.replicate 100 0) 7).length ≤
      max_queue_size ∧
    7 ∈ receive_enqueue max_queue_size (List.replicate 100 0) 7 := by
  have h := C8_queue_overflow (List.replicate 100 (0 : ℕ)) 7 (by decide)
  exact ⟨by decide, h.1, h.2.1⟩


/-- Unfolds one frame of a zone-tracker run from the value of the
per-frame update. -/
theorem zone_run_cons (tr tr2 : IndependentAreaTracker) (t : Timestamp)
    (b : Bool) (recs : List SessionRecord) (rest : List (Timestamp × Bool))
    (h : tr.update_detection t b = (tr2, recs)) :
    tr.run ((t, b) :: rest) =
      ((tr2.run rest).1, recs ++ (tr2.run rest).2) := by
  simp [IndependentAreaTracker.run, h]

/-- Zone scenario, frame at 10:00:00: material enters. -/
theorem zstep0 :
    zoneScenarioTracker.update_detection ⟨0, 36000⟩ true = (occAt 36000, []) := by
  norm_num [IndependentAreaTracker.update_detection, zoneScenarioTracker,
    IndependentAreaTracker.init, DailyTimer.init, occAt, zTr, zTimer,
    DailyTimer.start_session, DailyTimer.check_daily_reset]

/-- Zone scenario, frame at 10:00:01: still detected. -/
theorem zstep1 :
    (occAt 36000).update_detection ⟨0, 36001⟩ true = (occAt 36001, []) := by
  norm_num [IndependentAreaTracker.update_detection, occAt, zTr, zTimer]

/-- Zone scenario, frame at 10:00:02: still detected. -/
theorem zstep2 :
    (occAt 36001).update_detection ⟨0, 36002⟩ true = (occAt 36002, []) := by
  norm_num [IndependentAreaTracker.update_detection, occAt, zTr, zTimer]

/-- Zone scenario, frame at 10:00:03: still detected. -/
theorem zstep3 :
    (occAt 36002).update_detection ⟨0, 36003⟩ true = (occAt 36003, []) := by
  norm_num [IndependentAreaTracker.update_detection, occAt, zTr, zTimer]

/-- Zone scenario, frame at 10:00:04: still detected. -/
theorem zstep4 :
    (occAt 36003).update_detection ⟨0, 36004⟩ true = (occAt 36004, []) := by
  norm_num [IndependentAreaTracker.update_detection, occAt, zTr, zTimer]

/-- Zone scenario, frame at 10:00:05: still detected. -/
theorem zstep5 :
    (occAt 36004).update_detection ⟨0, 36005⟩ true = (occAt 36005, []) := by
  norm_num [IndependentAreaTracker.update_detection, occAt, zTr, zTimer]

/-- Zone scenario, frame at 10:00:06: the one-second loss threshold is
reached and the exit row is written with a six-second session. -/
theorem zstep6 :
    (occAt 36005).update_detection ⟨0, 36006⟩ false = (zDone, [zRec]) := by
  norm_num [IndependentAreaTracker.update_detection,
    IndependentAreaTracker.handle_material_exit,
    IndependentAreaTracker.save_area_data, occAt, zTr, zTimer, zDone, zRec,
    DailyTimer.end_session, mkSessionRecord, format_duration, pad2, qfmod,
    int_trunc, tdiff, Timestamp.toSeconds, Timestamp.hour, Timestamp.minute,
    get_current_shift, get_log_date_for_shift, remark_in_use]
  decide

/-- Zone scenario, frame at 10:00:07: nothing happens. -/
theorem zstep7 :
    zDone.update_detection ⟨0, 36007⟩ false = (zDone, []) := by
  norm_num [IndependentAreaTracker.update_detection, zDone, zTr, zTimer]

/-- Zone scenario, frame at 10:00:08: nothing happens. -/
theorem zstep8 :
    zDone.update_detection ⟨0, 36008⟩ false = (zDone, []) := by
  norm_num [IndependentAreaTracker.update_detection, zDone, zTr, zTimer]

/-- Zone scenario, frame at 10:00:09: nothing happens. -/
theorem zstep9 :
    zDone.update_detection ⟨0, 36009⟩ false = (zDone, []) := by
  norm_num [IndependentAreaTracker.update_detection, zDone, zTr, zTimer]

/-- Zone scenario, frame at 10:00:10: nothing happens. -/
theorem zstep10 :
    zDone.update_detection ⟨0, 36010⟩ false = (zDone, []) := by
  norm_num [IndependentAreaTracker.update_detection, zDone, zTr, zTimer]

/-- Complete zone scenario run: one row is emitted. -/
theorem zone_run_eq :
    zoneScenarioTracker.run zoneScenarioFrames = (zDone, [zRec]) := by
  show zoneScenarioTracker.run
    ((⟨0, 36000⟩, true) :: (⟨0, 36001⟩, true) :: (⟨0, 36002⟩, true) ::
     (⟨0, 36003⟩, true) :: (⟨0, 36004⟩, true) :: (⟨0, 36005⟩, true) ::
     (⟨0, 36006⟩, false) :: (⟨0, 36007⟩, false) :: (⟨0, 36008⟩, false) ::
     (⟨0, 36009⟩, false) :: (⟨0, 36010⟩, false) :: []) = (zDone, [zRec])
  rw [zone_run_cons _ _ _ _ _ _ zstep0,
      zone_run_cons _ _ _ _ _ _ zstep1,
      zone_run_cons _ _ _ _ _ _ zstep2,
      zone_run_cons _ _ _ _ _ _ zstep3,
      zone_run_cons _ _ _ _ _ _ zstep4,
      zone_run_cons _ _ _ _ _ _ zstep5,
      zone_run_cons _ _ _ _ _ _ zstep6,
      zone_run_cons _ _ _ _ _ _ zstep7,
      zone_run_cons _ _ _ _ _ _ zstep8,
      zone_run_cons _ _ _ _ _ _ zstep9,
      zone_run_cons _ _ _ _ _ _ zstep10]
  simp [IndependentAreaTracker.run]

/-- C3 counterexample: in the 10:00:00 to 10:00:05 scenario the single
emitted row carries duration_seconds 6 (the session ends only when the
one-second loss threshold has elapsed at 10:00:06), not 5 as claimed. -/
theorem C3_duration_counterexample :
    ((zoneScenarioTracker.run zoneScenarioFrames).2.map
      (fun r => r.time_int) = [6]) ∧ (6 : ℤ) ≠ 5 := by
  rw [zone_run_eq]
  exact ⟨by simp [zRec], by decide⟩

/-- C3 amended: the zone scenario emits exactly one row, with
time_in 10:00:00, shift Shift_1 and remark in_use as claimed, but with
duration_seconds 6: the exit timestamp is the frame at which the loss
threshold is confirmed, so the debounce second is part of the session. -/
theorem C3_zone_scenario_record :
    (zoneScenarioTracker.run zoneScenarioFrames).2 =
      [{ area := "bak_alkali", time := "00:00:06", time_int := 6,
         time_in := ⟨0, 36000⟩, shift := Shift.shift1, remark := "in_use",
         no_area := 1, log_date := 0, created_at := ⟨0, 36006⟩ }] := by
  rw [zone_run_eq]
  simp [zRec]


/-- Unfolds one frame of a freetime-tracker run from the value of the
per-frame update. -/
theorem free_run_cons (ft ft2 : FreetimeTracker) (t : Timestamp)
    (b : Bool) (recs : List SessionRecord) (rest : List (Timestamp × Bool))
    (h : ft.update_freetime_status b t = (ft2, recs)) :
    ft.run ((t, b) :: rest) =
      ((ft2.run rest).1, recs ++ (ft2.run rest).2) := by
  simp [FreetimeTracker.run, h]

/-- Freetime scenario, frame at 09:00:00: the all-empty anchor is set. -/
theorem fstep0 :
    freetimeScenarioTracker.update_freetime_status true ⟨0, 32400⟩ =
      (fIdle (some ⟨0, 32400⟩), []) := by
  norm_num [FreetimeTracker.update_freetime_status, freetimeScenarioTracker,
    FreetimeTracker.init, DailyTimer.init, fIdle, fTimer]

/-- Freetime scenario, frame at 09:00:01: one second elapsed, below the
two-second threshold. -/
theorem fstep1 :
    (fIdle (some ⟨0, 32400⟩)).update_freetime_status true ⟨0, 32401⟩ =
      (fIdle (some ⟨0, 32400⟩), []) := by
  norm_num [FreetimeTracker.update_freetime_status, fIdle, fTimer,
    tdiff, Timestamp.toSeconds]

/-- Freetime scenario, frame at 09:00:02: the threshold is reached and
freetime activates with the activation moment as session start. -/
theorem fstep2 :
    (fIdle (some ⟨0, 32400⟩)).update_freetime_status true ⟨0, 32402⟩ =
      (fActive, []) := by
  norm_num [FreetimeTracker.update_freetime_status, fIdle, fActive, fTimer,
    tdiff, Timestamp.toSeconds, DailyTimer.start_session,
    DailyTimer.check_daily_reset]

/-- Freetime scenario, frame at 09:00:03: already active, no change. -/
theorem fstep3 :
    fActive.update_freetime_status true ⟨0, 32403⟩ = (fActive, []) := by
  norm_num [FreetimeTracker.update_freetime_status, fActive, fTimer,
    tdiff, Timestamp.toSeconds]

/-- Freetime scenario, frame at 09:00:03.5: material appears, freetime
ends after a 1.5-second session and the freetime row is written. -/
theorem fstep4 :
    fActive.update_freetime_status false ⟨0, 64807/2⟩ = (fDone, [fRec]) := by
  norm_num [FreetimeTracker.update_freetime_status,
    FreetimeTracker.end_freetime, FreetimeTracker.save_freetime_data,
    fActive, fDone, fRec, fTimer, DailyTimer.end_session, mkSessionRecord,
    format_duration, pad2, qfmod, int_trunc, tdiff, Timestamp.toSeconds,
    Timestamp.hour, Timestamp.minute, get_current_shift,
    get_log_date_for_shift, remark_freetime]
  decide

/-- Complete freetime scenario run: one row is emitted. -/
theorem freetime_run_eq :
    freetimeScenarioTracker.run freetimeScenarioFrames = (fDone, [fRec]) := by
  show freetimeScenarioTracker.run
    ((⟨0, 32400⟩, true) :: (⟨0, 32401⟩, true) :: (⟨0, 32402⟩, true) ::
     (⟨0, 32403⟩, true) :: (⟨0, 64807/2⟩, false) :: []) = (fDone, [fRec])
  rw [free_run_cons _ _ _ _ _ _ fstep0,
      free_run_cons _ _ _ _ _ _ fstep1,
      free_run_cons _ _ _ _ _ _ fstep2,
      free_run_cons _ _ _ _ _ _ fstep3,
      free_run_cons _ _ _ _ _ _ fstep4]
  simp [FreetimeTracker.run]

/-- C4 counterexample: in the all-zones-empty 09:00:00 to 09:00:03.5
scenario the single freetime row carries duration_seconds 1 (the
session is measured from the activation moment 09:00:02, truncated from
1.5), which is not approximately 3 even within a tolerance of one. -/
theorem C4_duration_counterexample :
    ((freetimeScenarioTracker.run freetimeScenarioFrames).2.map
      (fun r => r.time_int) = [1]) ∧ ¬ ((2 : ℤ) ≤ 1 ∧ (1 : ℤ) ≤ 4) := by
  rw [freetime_run_eq]
  exact ⟨by simp [fRec], by decide⟩

/-- C4 amended: the freetime scenario emits exactly one row with remark
freetime as claimed, but its time_in is the activation moment 09:00:02
(the all-empty anchor plus the two-second threshold) and its
duration_seconds is 1, truncated from the 1.5 seconds between
activation and the material frame at 09:00:03.5. -/
theorem C4_freetime_scenario_record :
    (freetimeScenarioTracker.run freetimeScenarioFrames).2 =
      [{ area := "bak_alkali", time := "00:00:01", time_int := 1,
         time_in := ⟨0, 32402⟩, shift := Shift.shift1, remark := "freetime",
         no_area := 0, log_date := 0, created_at := ⟨0, 64807/2⟩ }] := by
  rw [freetime_run_eq]
  simp [fRec]

/-- Characterizes the Shift_1 branch by the branch condition of the
source. -/
theorem shift1_iff (h m : ℤ) :
    get_current_shift h m = Shift.shift1 ↔
      ((h = 7 ∧ 10 ≤ m) ∨ (7 < h ∧ h < 16)) := by
  unfold get_current_shift
  split_ifs with a b <;> simp_all

/-- Characterizes the Shift_2 branch by the branch conditions of the
source. -/
theorem shift2_iff (h m : ℤ) :
    get_current_shift h m = Shift.shift2 ↔
      (¬ ((h = 7 ∧ 10 ≤ m) ∨ (7 < h ∧ h < 16)) ∧
        ((16 ≤ h ∧ h < 24) ∨ (h = 0 ∧ m ≤ 15))) := by
  unfold get_current_shift
  split_ifs with a b <;> simp_all

/-- Characterizes the Shift_3 branch by the branch conditions of the
source. -/
theorem shift3_iff (h m : ℤ) :
    get_current_shift h m = Shift.shift3 ↔
      (¬ ((h = 7 ∧ 10 ≤ m) ∨ (7 < h ∧ h < 16)) ∧
        ¬ ((16 ≤ h ∧ h < 24) ∨ (h = 0 ∧ m ≤ 15))) := by
  unfold get_current_shift
  split_ifs with a b <;> simp_all

/-- C2 counterexample: at time-of-day 00:15:30 (930 seconds past
midnight) the code reads hour 0 and minute 15 and returns Shift_2 with
the previous log date, while the claimed second-level windows put
00:15:30 outside Shift_2 (which the claim ends at 00:15:00) and predict
the current calendar date. -/
theorem C2_shift_seconds_counterexample :
    todOf 0 15 30 = 930 ∧
    Timestamp.hour ⟨0, 930⟩ = 0 ∧ Timestamp.minute ⟨0, 930⟩ = 15 ∧
    get_current_shift 0 15 = Shift.shift2 ∧
    ¬ ((57600 ≤ todOf 0 15 30 ∧ todOf 0 15 30 ≤ 86399) ∨
        todOf 0 15 30 ≤ 900) ∧
    get_log_date_for_shift 0 0 15 = -1 ∧
    ¬ (get_current_shift 0 15 = Shift.shift3 ∨
        (get_current_shift 0 15 = Shift.shift2 ∧ todOf 0 15 30 ≤ 900)) := by
  refine ⟨by decide, ?_, ?_, by decide, by decide, by decide, by decide⟩
  · norm_num [Timestamp.hour]
  · norm_num [Timestamp.minute]

/-- C2 amended: with hour, minute and second read at minute
granularity, Shift_1 covers 07:10:00 to 15:59:59, Shift_2 covers
16:00:00 to 23:59:59 and 00:00:00 to 00:15:59 (the code compares
minute, so the whole minute 15 is Shift_2), Shift_3 covers 00:16:00 to
07:09:59; the log date is the previous calendar day exactly for Shift_3
or for Shift_2 before 00:16:00, and the current day otherwise; the
three boundary examples of the claim hold. -/
theorem C2_shift_and_log_date (h m s : ℕ)
    (hh : h < 24) (hm : m < 60) (hs : s < 60) :
    (get_current_shift h m = Shift.shift1 ↔
      25800 ≤ todOf h m s ∧ todOf h m s ≤ 57599) ∧
    (get_current_shift h m = Shift.shift2 ↔
      ((57600 ≤ todOf h m s ∧ todOf h m s ≤ 86399) ∨ todOf h m s ≤ 959)) ∧
    (get_current_shift h m = Shift.shift3 ↔
      (960 ≤ todOf h m s ∧ todOf h m s ≤ 25799)) ∧
    (∀ d : ℤ,
      (get_log_date_for_shift d h m = d - 1 ↔
        (get_current_shift h m = Shift.shift3 ∨
          (get_current_shift h m = Shift.shift2 ∧ todOf h m s ≤ 959))) ∧
      (get_log_date_for_shift d h m = d ↔
        ¬ (get_current_shift h m = Shift.shift3 ∨
          (get_current_shift h m = Shift.shift2 ∧ todOf h m s ≤ 959)))) ∧
    (get_current_shift 0 15 = Shift.shift2 ∧
      get_log_date_for_shift 0 0 15 = -1) ∧
    (get_current_shift 0 16 = Shift.shift3 ∧
      get_log_date_for_shift 0 0 16 = -1) ∧
    (get_current_shift 7 10 = Shift.shift1 ∧
      get_log_date_for_shift 0 7 10 = 0) := by
  refine ⟨?_, ?_, ?_, ?_, by decide, by decide, by decide⟩
  · rw [shift1_iff]
    unfold todOf
    omega
  · rw [shift2_iff]
    unfold todOf
    omega
  · rw [shift3_iff]
    unfold todOf
    omega
  · intro d
    unfold get_log_date_for_shift
    split_ifs with g1 g2
    · refine ⟨iff_of_true rfl (Or.inl g1), ?_⟩
      exact iff_of_false (by omega) (fun hn => hn (Or.inl g1))
    · have h959 : todOf h m s ≤ 959 := by
        unfold todOf
        omega
      refine ⟨iff_of_true rfl (Or.inr ⟨g2.1, h959⟩), ?_⟩
      exact iff_of_false (by omega) (fun hn => hn (Or.inr ⟨g2.1, h959⟩))
    · have hX : ¬ (get_current_shift h m = Shift.shift3 ∨
          (get_current_shift h m = Shift.shift2 ∧ todOf h m s ≤ 959)) := by
        rintro (h3 | ⟨h2, ht⟩)
        · exact g1 h3
        · refine g2 ⟨h2, ?_, ?_⟩
          · unfold todOf at ht
            omega
          · unfold todOf at ht
            omega
      exact ⟨iff_of_false (by omega) hX, iff_of_true rfl hX⟩

/-- Witness for C2 at wall-clock 10:00:00. -/
theorem C2_shift_and_log_date_witness :
    (10 < 24 ∧ 0 < 60 ∧ 0 < 60) ∧
    (get_current_shift 10 0 = Shift.shift1 ↔
      25800 ≤ todOf 10 0 0 ∧ todOf 10 0 0 ≤ 57599) := by
  exact ⟨by decide,
    (C2_shift_and_log_date 10 0 0 (by decide) (by decide) (by decide)).1⟩

/-- C10: the detection conversion of update_all_trackers uses a strict
comparison against 0.6, so a detection at confidence exactly 0.6 marks
nothing for either the material class 0 or the glove class 2, every
other class id is ignored outright, and a frame whose detections all
fail the filter produces all-false zone flags and a false glove flag. -/
theorem C10_confidence_filter (areas : List IndependentAreaTracker)
    (insideGlove : BBox → Bool) (dets : List Detection)
    (hd : ∀ d ∈ dets, d.conf ≤ 0.6 ∨ (d.cls ≠ 0 ∧ d.cls ≠ 2)) :
    update_detection_flags areas insideGlove dets =
      (List.replicate areas.length false, false) ∧
    (∀ (acc : List Bool × Bool) (d : Detection),
      d.cls ≠ 0 → d.cls ≠ 2 → detectStep areas insideGlove acc d = acc) := by
  have hstep : ∀ (acc : List Bool × Bool) (d : Detection),
      d.conf ≤ 0.6 ∨ (d.cls ≠ 0 ∧ d.cls ≠ 2) →
      detectStep areas insideGlove acc d = acc := by
    intro acc d hcase
    unfold detectStep
    split_ifs with h1 h2
    · rcases hcase with hc | ⟨h0, _⟩
      · exact absurd h1.2 (not_lt.mpr hc)
      · exact absurd h1.1 h0
    · rcases hcase with hc | ⟨_, h2c⟩
      · exact absurd h2.2 (not_lt.mpr hc)
      · exact absurd h2.1 h2c
    · rfl
  constructor
  · have hfold : ∀ (l : List Detection) (acc : List Bool × Bool),
        (∀ d ∈ l, d.conf ≤ 0.6 ∨ (d.cls ≠ 0 ∧ d.cls ≠ 2)) →
        l.foldl (detectStep areas insideGlove) acc = acc := by
      intro l
      induction l with
      | nil => intro acc _; rfl
      | cons d rest ih =>
          intro acc hall
          rw [List.foldl_cons, hstep acc d (hall d (by simp))]
          exact ih acc (fun x hx => hall x (by simp [hx]))
    unfold update_detection_flags
    exact hfold dets _ hd
  · intro acc d h0 h2
    exact hstep acc d (Or.inr ⟨h0, h2⟩)

/-- Witness for C10 on the sample detections at confidence exactly 0.6. -/
theorem C10_confidence_filter_witness :
    (∀ d ∈ sampleDetections, d.conf ≤ 0.6 ∨ (d.cls ≠ 0 ∧ d.cls ≠ 2)) ∧
    update_detection_flags [zoneScenarioTracker] sampleGloveTest
        sampleDetections =
      (List.replicate [zoneScenarioTracker].length false, false) := by
  have hd : ∀ d ∈ sampleDetections,
      d.conf ≤ 0.6 ∨ (d.cls ≠ 0 ∧ d.cls ≠ 2) := by
    intro d hdmem
    simp only [sampleDetections, List.mem_cons, List.not_mem_nil,
      or_false] at hdmem
    rcases hdmem with h | h | h <;> subst h
    · exact Or.inl (by norm_num)
    · exact Or.inl (by norm_num)
    · exact Or.inr ⟨by decide, by decide⟩
  exact ⟨hd, (C10_confidence_filter _ _ _ hd).1⟩

/-- Every frame trace whose not-detected frames all arrive before the
loss threshold leaves an occupied tracker occupied, with its timer and
session start untouched, and emits nothing. -/
theorem zone_run_no_exit (frames : List (Timestamp × Bool)) :
    ∀ tr : IndependentAreaTracker, tr.is_material_present = true →
      gapsOk tr.material_lost_threshold tr.last_detection_time frames = true →
      (tr.run frames).2 = [] ∧
      (tr.run frames).1.is_material_present = true ∧
      (tr.run frames).1.daily_timer = tr.daily_timer ∧
      (tr.run frames).1.material_start_time = tr.material_start_time := by
  induction frames with
  | nil =>
      intro tr hp _
      exact ⟨rfl, hp, rfl, rfl⟩
  | cons f rest ih =>
      intro tr hp hg
      obtain ⟨t, b⟩ := f
      cases b with
      | true =>
          have hupd : tr.update_detection t true =
              ({ tr with last_detection_time := some t }, []) := by
            unfold IndependentAreaTracker.update_detection
            simp [hp]
          have hg2 : gapsOk
              ({ tr with last_detection_time := some t } :
                IndependentAreaTracker).material_lost_threshold
              ({ tr with last_detection_time := some t } :
                IndependentAreaTracker).last_detection_time rest = true := by
            simpa [gapsOk] using hg
          obtain ⟨r1, r2, r3, r4⟩ := ih _ (by simp [hp]) hg2
          rw [zone_run_cons _ _ _ _ _ rest hupd]
          exact ⟨by simpa using r1, r2, by simpa using r3, by simpa using r4⟩
      | false =>
          cases hl : tr.last_detection_time with
          | none =>
              have hupd : tr.update_detection t false = (tr, []) := by
                unfold IndependentAreaTracker.update_detection
                simp [hp, hl]
              have hg2 : gapsOk tr.material_lost_threshold
                  tr.last_detection_time rest = true := by
                rw [hl] at hg ⊢
                simpa [gapsOk] using hg
              obtain ⟨r1, r2, r3, r4⟩ := ih tr hp hg2
              rw [zone_run_cons _ _ _ _ _ rest hupd]
              exact ⟨by simpa using r1, r2, r3, r4⟩
          | some l =>
              have hgl : tdiff t l < tr.material_lost_threshold ∧
                  gapsOk tr.material_lost_threshold (some l) rest = true := by
                rw [hl] at hg
                simpa [gapsOk, Bool.and_eq_true, decide_eq_true_eq] using hg
              have hupd : tr.update_detection t false = (tr, []) := by
                unfold IndependentAreaTracker.update_detection
                simp [hp, hl, not_le.mpr hgl.1]
              have hg2 : gapsOk tr.material_lost_threshold
                  tr.last_detection_time rest = true := by
                rw [hl]
                exact hgl.2
              obtain ⟨r1, r2, r3, r4⟩ := ih tr hp hg2
              rw [zone_run_cons _ _ _ _ _ rest hupd]
              exact ⟨by simpa using r1, r2, r3, r4⟩

/-- C6: while every detection gap stays strictly below the loss
threshold an occupied zone tracker never leaves OCCUPIED, never touches
its DailyTimer session and never emits a row; and a not-detected frame
at which now minus lastSeenTime reaches the threshold flips the tracker
to EMPTY, ends the DailyTimer session and emits exactly one row with
remark in_use. -/
theorem C6_loss_debounce (tr : IndependentAreaTracker)
    (frames : List (Timestamp × Bool))
    (hpres : tr.is_material_present = true)
    (hgaps : gapsOk tr.material_lost_threshold tr.last_detection_time
      frames = true) :
    ((tr.run frames).2 = [] ∧
     (tr.run frames).1.is_material_present = true ∧
     (tr.run frames).1.daily_timer = tr.daily_timer) ∧
    (∀ (t l s : Timestamp),
      tr.last_detection_time = some l → tr.material_start_time = some s →
      tr.material_lost_threshold ≤ tdiff t l →
      (tr.update_detection t false).1.is_material_present = false ∧
      (tr.update_detection t false).1.daily_timer =
        (tr.daily_timer.end_session t).1 ∧
      ∃ r, (tr.update_detection t false).2 = [r] ∧
        r.remark = remark_in_use) := by
  constructor
  · obtain ⟨r1, r2, r3, _⟩ := zone_run_no_exit frames tr hpres hgaps
    exact ⟨r1, r2, r3⟩
  · intro t l s hl hs hthr
    unfold IndependentAreaTracker.update_detection
      IndependentAreaTracker.handle_material_exit
    simp [hpres, hl, hs, hthr, IndependentAreaTracker.save_area_data,
      mkSessionRecord]

/-- Witness for C6: the occupied scenario tracker fed one not-detected
frame half a second after the last detection emits nothing. -/
theorem C6_loss_debounce_witness :
    ((occAt 36000).is_material_present = true ∧
      gapsOk (occAt 36000).material_lost_threshold
        (occAt 36000).last_detection_time [(⟨0, 72001/2⟩, false)] = true) ∧
    ((occAt 36000).run [(⟨0, 72001/2⟩, false)]).2 = [] := by
  have hg : gapsOk (occAt 36000).material_lost_threshold
      (occAt 36000).last_detection_time [(⟨0, 72001/2⟩, false)] = true := by
    norm_num [occAt, zTr, zTimer, gapsOk, tdiff, Timestamp.toSeconds]
  exact ⟨⟨rfl, hg⟩, (C6_loss_debounce (occAt 36000) _ rfl hg).1.1⟩

/-- C1: at a glove-entry transition with freetime active the tracker
records precededByFreetime, ends the freetime session and opens its own
DailyTimer session; with freetime inactive it records the negative flag
and touches neither the freetime tracker nor its own timer; and at the
glove-loss transition exactly one in_use row is emitted when the entry
was preceded by freetime, while otherwise no row is emitted and the
DailyTimer is untouched, whatever the session length. -/
theorem C1_glove_record_iff_freetime :
    (∀ (g : GloveTracker) (ft : FreetimeTracker) (t fs : Timestamp),
      g.is_glove_detected = false →
      ft.is_freetime_active = true → ft.freetime_start_time = some fs →
      (g.update_glove_detection t true ft).1.was_freetime_before_glove =
        true ∧
      (g.update_glove_detection t true ft).2.1.is_freetime_active = false ∧
      (g.update_glove_detection t true ft).2.1.freetime_start_time = none ∧
      (g.update_glove_detection t true ft).1.daily_timer.is_active = true ∧
      (g.update_glove_detection t true ft).1.is_glove_detected = true ∧
      (g.update_glove_detection t true ft).1.glove_start_time = some t) ∧
    (∀ (g : GloveTracker) (ft : FreetimeTracker) (t : Timestamp),
      g.is_glove_detected = false → ft.is_freetime_active = false →
      (g.update_glove_detection t true ft).1.was_freetime_before_glove =
        false ∧
      (g.update_glove_detection t true ft).1.daily_timer = g.daily_timer ∧
      (g.update_glove_detection t true ft).2.1 = ft ∧
      (g.update_glove_detection t true ft).2.2 = []) ∧
    (∀ (g : GloveTracker) (t s : Timestamp),
      g.is_glove_detected = true → g.glove_start_time = some s →
      ((g.was_freetime_before_glove = true →
        ∃ r, (g.handle_glove_exit t).2 = [r] ∧ r.remark = remark_in_use) ∧
      (g.was_freetime_before_glove = false →
        (g.handle_glove_exit t).2 = [] ∧
        (g.handle_glove_exit t).1.daily_timer = g.daily_timer))) := by
  refine ⟨?_, ?_, ?_⟩
  · intro g ft t fs hg hfa hfs
    unfold GloveTracker.update_glove_detection FreetimeTracker.end_freetime
    simp [hg, hfa, hfs, DailyTimer.start_session_is_active]
  · intro g ft t hg hfa
    unfold GloveTracker.update_glove_detection
    simp [hg, hfa]
  · intro g t s hgd hgs
    constructor
    · intro hw
      unfold GloveTracker.handle_glove_exit
      simp [hgd, hgs, hw, GloveTracker.save_glove_data, mkSessionRecord]
    · intro hw
      unfold GloveTracker.handle_glove_exit
      simp [hgd, hgs, hw]

/-- Witness for C1: a fresh glove tracker sees a glove while the
scenario freetime session is active. -/
theorem C1_glove_record_iff_freetime_witness :
    (GloveTracker.init ("bak_alkali") 0).is_glove_detected = false ∧
    fActive.is_freetime_active = true ∧
    fActive.freetime_start_time = some ⟨0, 32402⟩ ∧
    ((GloveTracker.init ("bak_alkali") 0).update_glove_detection
      ⟨0, 32403⟩ true fActive).1.was_freetime_before_glove = true ∧
    ((GloveTracker.init ("bak_alkali") 0).update_glove_detection
      ⟨0, 32403⟩ true fActive).2.1.is_freetime_active = false := by
  have h := C1_glove_record_iff_freetime.1 (GloveTracker.init ("bak_alkali") 0)
    fActive ⟨0, 32403⟩ ⟨0, 32402⟩ rfl rfl rfl
  exact ⟨rfl, rfl, rfl, h.1, h.2.1⟩

end DeteksiMaterial
